import Mathlib

/-!
Verification of the mangadex-api client dispatch layer.

The development shallowly embeds the request/response pipeline of the
`mangadex-api` crate: the shared `HttpClient` state, the endpoint
descriptor contract, request construction (URL resolution, payload and
header attachment, the auth gate), response classification (server
errors, envelope decoding), and the status-driven boolean endpoint
`IsFollowingGroup::send`.  JSON documents are modelled as an inductive
`Json` value (the third-party textual parser/printer `serde_json` is
abstracted as a `String → Option Json` function where a raw body is
involved).  Machine integers (`u32`) are modelled as `Nat` with explicit
range checks where the code's deserializer enforces them.

Parts of the repository that the dispatch layer depends on but whose
source is not available (the `mangadex-api-schema` crate root with
`ApiResult`, `FromResponse`, `NoData` and `deserialize_null_default`,
the `mangadex-api-types` error enum, and `constants.rs`) are modelled
from the specification; each such definition carries a doc comment
starting with `Modelled from the spec:`.
-/

namespace Mangadex

/-- A JSON value.  Numbers are modelled as integers, which covers every
numeric field of the shapes under study (`u32` counters, status codes). -/
inductive Json : Type where
  | null : Json
  | bool (b : Bool) : Json
  | num (n : Int) : Json
  | str (s : String) : Json
  | arr (elems : List Json) : Json
  | obj (fields : List (String × Json)) : Json

/-- Field lookup in a JSON object field list: first binding wins,
mirroring a serde by-name field visitor. -/
def fieldOf : List (String × Json) → String → Option Json
  | [], _ => none
  | (k, v) :: rest, name => if k = name then some v else fieldOf rest name

/-- Structured deserialization failure, standing in for a serde error. -/
inductive DeserErr : Type where
  | badJson : DeserErr
  | missingField (name : String) : DeserErr
  | typeMismatch (name : String) : DeserErr
  | badEnvelope : DeserErr
deriving DecidableEq, Repr

/-- Modelled from the spec: one structured error of an `"error"`
envelope, `errors: [\x7bid, status, title?, detail?\x7d]` (§6); the concrete
type lives in the `mangadex-api-schema` crate, not under `src/`. -/
structure MdError where
  id : String
  status : Nat
  title : Option String
  detail : Option String
deriving DecidableEq, Repr

/-- Modelled from the spec: the ordered list of structured errors carried
by an `"error"` envelope (§4.4, §6). -/
structure ApiErrors where
  errors : List MdError
deriving DecidableEq, Repr

/-- Modelled from the spec: the error enum of `mangadex-api-types`
(§7): MissingTokens, BorrowConflict, transport failure, ServerError,
ApiError, DecodeError, plus the URL-resolution failure propagated by the
`?` on `base_url.join` in `HttpClient::send_request_without_deserializing`. -/
inductive Error : Type where
  | missingTokens : Error
  | borrowConflict : Error
  | urlParseFailed : Error
  | requestFailed (msg : String) : Error
  | serverError (status : Nat) (body : String) : Error
  | api (e : ApiErrors) : Error
  | parse (e : DeserErr) : Error
deriving DecidableEq, Repr

/-- The session/refresh token pair (`AuthTokens`). -/
structure AuthTokens where
  session : String
  refresh : String
deriving DecidableEq, Repr

/-- The shared client state from `http_client.rs`: base URL, optional
auth tokens, optional captcha solution.  The `reqwest::Client` transport
handle is external and is passed to each dispatch as a function. -/
structure HttpClient where
  base_url : String
  auth_tokens : Option AuthTokens
  captcha : Option String
deriving DecidableEq, Repr

/-- The HTTP verbs used by the endpoints under study. -/
inductive Method : Type where
  | GET : Method
  | POST : Method
  | PUT : Method
  | DELETE : Method
deriving DecidableEq, Repr

/-- The endpoint descriptor capability set (`Endpoint` trait): method,
path, optional query, optional body, optional multipart, auth flag. -/
structure EndpointD where
  method : Method
  path : String
  query : Option Json := none
  body : Option Json := none
  multipart : Option Unit := none
  require_auth : Bool := false

/-- A concrete HTTP request as assembled by the dispatcher. -/
structure Request where
  method : Method
  url : String
  query : Option Json
  body : Option Json
  multipart : Option Unit
  headers : List (String × String)

/-- A raw HTTP response: status code and body text.  A valid HTTP
status is in `100..=999` (the invariant of `http::StatusCode`). -/
structure Response where
  status : Nat
  body : String
deriving DecidableEq, Repr

/-- Append the `X-Captcha-Result` header when a captcha token is set,
mirroring the final header step of
`HttpClient::send_request_without_deserializing`. -/
def addCaptcha (c : HttpClient) (req : Request) : Request :=
  match c.captcha with
  | some cap => { req with headers := req.headers ++ [("X-Captcha-Result", cap)] }
  | none => req

/-- Request construction, the part of
`HttpClient::send_request_without_deserializing` before `req.send()`:
resolve base URL and path (`join`, fallible), attach query, body and
multipart payloads, attach the bearer header when tokens are present,
otherwise fail with `MissingTokens` when the endpoint requires auth,
then attach the captcha header.  `join` abstracts `url::Url::join`. -/
def buildRequest (join : String → String → Option String)
    (c : HttpClient) (e : EndpointD) : Except Error Request :=
  match join c.base_url e.path with
  | none => .error .urlParseFailed
  | some endpoint_url =>
    let req : Request :=
      { method := e.method, url := endpoint_url, query := e.query,
        body := e.body, multipart := e.multipart, headers := [] }
    match c.auth_tokens with
    | some tokens =>
      .ok (addCaptcha c
        { req with headers := req.headers ++ [("Authorization", "Bearer " ++ tokens.session)] })
    | none =>
      if e.require_auth then .error .missingTokens
      else .ok (addCaptcha c req)

/-- `HttpClient::send_request_without_deserializing`: build the request
and execute it on the transport; a transport failure propagates as a
request error. -/
def sendRaw (join : String → String → Option String) (c : HttpClient) (e : EndpointD)
    (transport : Request → Except String Response) : Except Error Response :=
  match buildRequest join c e with
  | .error er => .error er
  | .ok req =>
    match transport req with
    | .error msg => .error (.requestFailed msg)
    | .ok res => .ok res

/-- Number of transport invocations a dispatch performs: `req.send()`
is reached exactly when request construction succeeds. -/
def networkCalls (join : String → String → Option String)
    (c : HttpClient) (e : EndpointD) : Nat :=
  match buildRequest join c e with
  | .error _ => 0
  | .ok _ => 1

/-- Modelled from the spec: the two-variant response envelope
(`ApiResult` of the schema crate): an `"ok"` payload or an `"error"`
payload carrying the structured error list (§4.4). -/
inductive ApiResult (α : Type) : Type where
  | ok (value : α) : ApiResult α
  | err (errors : ApiErrors) : ApiResult α
deriving DecidableEq

/-- Decode one structured error object: required `id` string, required
non-negative `status` number, optional `title` and `detail` strings. -/
def decodeMdError (j : Json) : Except DeserErr MdError :=
  match j with
  | .obj fs =>
    match fieldOf fs "id" with
    | some (.str i) =>
      match fieldOf fs "status" with
      | some (.num n) =>
        if 0 ≤ n then
          match fieldOf fs "title" with
          | none => decodeMdErrorTail fs i n.toNat none
          | some .null => decodeMdErrorTail fs i n.toNat none
          | some (.str t) => decodeMdErrorTail fs i n.toNat (some t)
          | some _ => .error (.typeMismatch "title")
        else .error (.typeMismatch "status")
      | _ => .error (.typeMismatch "status")
    | _ => .error (.typeMismatch "id")
  | _ => .error .badEnvelope
where
  /-- Decode the trailing optional `detail` field. -/
  decodeMdErrorTail (fs : List (String × Json)) (i : String) (st : Nat)
      (t : Option String) : Except DeserErr MdError :=
    match fieldOf fs "detail" with
    | none => .ok ⟨i, st, t, none⟩
    | some .null => .ok ⟨i, st, t, none⟩
    | some (.str d) => .ok ⟨i, st, t, some d⟩
    | some _ => .error (.typeMismatch "detail")

/-- Decode a list of JSON values elementwise, failing on the first bad
element. -/
def decodeList (dec : Json → Except DeserErr α) : List Json → Except DeserErr (List α)
  | [] => .ok []
  | j :: rest =>
    match dec j with
    | .error e => .error e
    | .ok a =>
      match decodeList dec rest with
      | .error e => .error e
      | .ok l => .ok (a :: l)

/-- Modelled from the spec: envelope decoding (§4.4): the `result`
discriminator alone selects the shape — `"ok"` parses the envelope into
the declared payload shape, `"error"` parses the `errors` array into the
structured error list; a missing or unknown discriminator, or an
ill-shaped selected payload, is a deserialization error. -/
def decodeApiResult (dec : Json → Except DeserErr α) (j : Json) :
    Except DeserErr (ApiResult α) :=
  match j with
  | .obj fs =>
    match fieldOf fs "result" with
    | some (.str r) =>
      if r = "ok" then
        match dec j with
        | .error e => .error e
        | .ok v => .ok (.ok v)
      else if r = "error" then
        match fieldOf fs "errors" with
        | some (.arr es) =>
          match decodeList decodeMdError es with
          | .error e => .error e
          | .ok l => .ok (.err ⟨l⟩)
        | _ => .error .badEnvelope
      else .error .badEnvelope
    | _ => .error .badEnvelope
  | _ => .error .badEnvelope

/-- Modelled from the spec: the empty payload type `NoData` of the
schema crate; it deserializes from any envelope object. -/
structure NoData where
deriving DecidableEq, Repr

/-- Decode `NoData`: any JSON object is accepted. -/
def decodeNoData (j : Json) : Except DeserErr NoData :=
  match j with
  | .obj _ => .ok ⟨⟩
  | _ => .error .badEnvelope

/-- Modelled from the spec: conversion of a decoded `NoData` envelope
into a result for the status-driven boolean branch (§4.5): a decoded
structured error list is propagated, while a neutral not-found body — no
error list, or an empty one — is a success. -/
def intoResultNoData : ApiResult NoData → Except ApiErrors NoData
  | .ok v => .ok v
  | .err e => if e.errors = [] then .ok ⟨⟩ else .error e

/-- Modelled from the spec: the `FromResponse` conversion for
`Result<T>` response shapes (§4.4, §7): an `"ok"` payload becomes the
success value, an `"error"` envelope becomes an `ApiError`. -/
def fromResponseResult : ApiResult α → Except Error α
  | .ok v => .ok v
  | .err e => .error (.api e)

/-- `HttpClient::send_request` instantiated at a `Result<T>` response
shape: dispatch raw, classify 5xx (`StatusCode::is_server_error`, i.e.
`500..=599`) as `ServerError` with the raw body text, otherwise parse
the body text as JSON (`jsonParse` abstracts `serde_json`), decode the
envelope and apply the `FromResponse` conversion.  The value is the
response payload of `send_request`; `sendFlat` below adds the `?` of the
endpoint macro's generated `send()`. -/
def sendRequest (join : String → String → Option String)
    (jsonParse : String → Option Json) (dec : Json → Except DeserErr α)
    (c : HttpClient) (e : EndpointD)
    (transport : Request → Except String Response) : Except Error (Except Error α) :=
  match sendRaw join c e transport with
  | .error er => .error er
  | .ok res =>
    if 500 ≤ res.status ∧ res.status ≤ 599 then
      .error (.serverError res.status res.body)
    else
      match jsonParse res.body with
      | none => .error (.parse .badJson)
      | some j =>
        match decodeApiResult dec j with
        | .error de => .error (.parse de)
        | .ok r => .ok (fromResponseResult r)

/-- The generated `send()` of a `flatten_result` endpoint: call
`send_request` and flatten the inner result with `?`. -/
def sendFlat (join : String → String → Option String)
    (jsonParse : String → Option Json) (dec : Json → Except DeserErr α)
    (c : HttpClient) (e : EndpointD)
    (transport : Request → Except String Response) : Except Error α :=
  match sendRequest join jsonParse dec c e transport with
  | .error er => .error er
  | .ok r => r

/-- The response payload of the boolean follow-check endpoints. -/
structure IsFollowingResponse where
  is_following : Bool
deriving DecidableEq, Repr

/-- The `IsFollowingGroup` endpoint descriptor: `GET
/user/follows/group/` followed by the group id, no payload, auth
required. -/
def isFollowingGroupEndpoint (group_id : String) : EndpointD :=
  { method := .GET, path := "/user/follows/group/" ++ group_id, require_auth := true }

/-- `IsFollowingGroup::send`: dispatch raw, then branch on the status —
200 yields `is_following = true`; 404 decodes the body as a `NoData`
envelope, a neutral body yields `is_following = false` and a structured
error list an `ApiError`; any other status yields `ServerError` with the
raw body text. -/
def isFollowingSend (join : String → String → Option String)
    (jsonParse : String → Option Json) (c : HttpClient) (group_id : String)
    (transport : Request → Except String Response) : Except Error IsFollowingResponse :=
  match sendRaw join c (isFollowingGroupEndpoint group_id) transport with
  | .error er => .error er
  | .ok res =>
    if res.status = 200 then .ok ⟨true⟩
    else if res.status = 404 then
      match jsonParse res.body with
      | none => .error (.parse .badJson)
      | some j =>
        match decodeApiResult decodeNoData j with
        | .error de => .error (.parse de)
        | .ok r =>
          match intoResultNoData r with
          | .ok _ => .ok ⟨false⟩
          | .error e => .error (.api e)
    else .error (.serverError res.status res.body)

/-- Sequential composition of fallible decoding steps, the chaining a
serde field visitor performs. -/
def andThenE (x : Except DeserErr α) (f : α → Except DeserErr β) : Except DeserErr β :=
  match x with
  | .error e => .error e
  | .ok a => f a

/-- A `u32` value. -/
abbrev U32 := Fin 4294967296

/-- Modelled from the spec: the language code type of the types crate
(an out-of-scope mechanical value type), reduced to its string code. -/
structure Language where
  code : String
deriving DecidableEq, Repr

/-- Modelled from the spec: the datetime wrapper of the types crate
(`YYYY-MM-DDTHH:MM:SS+HH:MM` strings), reduced to its string value. -/
structure MangaDexDateTime where
  value : String
deriving DecidableEq, Repr

/-- A UUID, reduced to its string form. -/
structure Uuid where
  value : String
deriving DecidableEq, Repr

/-- A URL value held in a response attribute, reduced to its string form. -/
structure Url where
  value : String
deriving DecidableEq, Repr

/-- Modelled from the spec: `deserialize_null_default` of the schema
crate root (not under `src/`): a `null` value decodes to the type's
empty value — here the empty string — instead of failing (§9); a
missing field or a non-string, non-null value still fails. -/
def deserializeNullDefault (name : String) : Option Json → Except DeserErr String
  | none => .error (.missingField name)
  | some .null => .ok ""
  | some (.str s) => .ok s
  | some _ => .error (.typeMismatch name)

/-- Decode a required string field. -/
def decodeStrField (name : String) : Option Json → Except DeserErr String
  | none => .error (.missingField name)
  | some (.str s) => .ok s
  | some _ => .error (.typeMismatch name)

/-- Decode an optional string field: missing and `null` both decode to
`none` (serde's `Option` handling). -/
def decodeOptStrField (name : String) : Option Json → Except DeserErr (Option String)
  | none => .ok none
  | some .null => .ok none
  | some (.str s) => .ok (some s)
  | some _ => .error (.typeMismatch name)

/-- Decode a required `u32` field: a number in `0..2^32` (serde rejects
negative, fractional and out-of-range numbers for `u32`). -/
def decodeU32Field (name : String) : Option Json → Except DeserErr U32
  | some (.num n) =>
    if h : 0 ≤ n ∧ n < 4294967296 then .ok ⟨n.toNat, by omega⟩
    else .error (.typeMismatch name)
  | some _ => .error (.typeMismatch name)
  | none => .error (.missingField name)

/-- The `ChapterAttributes` struct of
`src/mangadex-api-schema/src/v5/chapter.rs`: `title` uses the
null-tolerant string decoder, the `Option` fields tolerate absence and
`null`, every other field is required. -/
structure ChapterAttributes where
  title : String
  volume : Option String
  chapter : Option String
  pages : U32
  translated_language : Language
  uploader : Option Uuid
  external_url : Option Url
  version : U32
  created_at : MangaDexDateTime
  updated_at : Option MangaDexDateTime
  publish_at : MangaDexDateTime
  readable_at : MangaDexDateTime
deriving DecidableEq, Repr

/-- Deserialization of `ChapterAttributes` (serde derive semantics with
`rename_all = "camelCase"`): field-by-field decoding from the object,
in declaration order, failing on the first ill-typed or missing
required field; only `title` routes through `deserializeNullDefault`. -/
def decodeChapterAttributes (j : Json) : Except DeserErr ChapterAttributes :=
  match j with
  | .obj fs =>
    andThenE (deserializeNullDefault "title" (fieldOf fs "title")) (fun title =>
    andThenE (decodeOptStrField "volume" (fieldOf fs "volume")) (fun volume =>
    andThenE (decodeOptStrField "chapter" (fieldOf fs "chapter")) (fun chapter =>
    andThenE (decodeU32Field "pages" (fieldOf fs "pages")) (fun pages =>
    andThenE (decodeStrField "translatedLanguage" (fieldOf fs "translatedLanguage")) (fun lang =>
    andThenE (decodeOptStrField "uploader" (fieldOf fs "uploader")) (fun uploader =>
    andThenE (decodeOptStrField "externalUrl" (fieldOf fs "externalUrl")) (fun external_url =>
    andThenE (decodeU32Field "version" (fieldOf fs "version")) (fun version =>
    andThenE (decodeStrField "createdAt" (fieldOf fs "createdAt")) (fun created_at =>
    andThenE (decodeOptStrField "updatedAt" (fieldOf fs "updatedAt")) (fun updated_at =>
    andThenE (decodeStrField "publishAt" (fieldOf fs "publishAt")) (fun publish_at =>
    andThenE (decodeStrField "readableAt" (fieldOf fs "readableAt")) (fun readable_at =>
    .ok { title := title, volume := volume, chapter := chapter, pages := pages,
          translated_language := ⟨lang⟩, uploader := uploader.map Uuid.mk,
          external_url := external_url.map Url.mk, version := version,
          created_at := ⟨created_at⟩, updated_at := updated_at.map MangaDexDateTime.mk,
          publish_at := ⟨publish_at⟩, readable_at := ⟨readable_at⟩ }))))))))))))
  | _ => .error .badEnvelope

/-- Serialize an optional string-like value: `None` becomes `null`. -/
def jsonOfOptStr : Option String → Json
  | none => .null
  | some s => .str s

/-- Serialization of `ChapterAttributes` (the crate's `serialize`
feature): camelCase field names in declaration order; `uploader` is
skipped entirely when absent (`skip_serializing_if = "Option::is_none"`),
every other optional field serializes `None` as `null`. -/
def serializeChapterAttributes (a : ChapterAttributes) : Json :=
  .obj (
    [("title", .str a.title),
     ("volume", jsonOfOptStr a.volume),
     ("chapter", jsonOfOptStr a.chapter),
     ("pages", .num ((a.pages : Nat) : Int)),
     ("translatedLanguage", .str a.translated_language.code)]
    ++ (match a.uploader with
        | none => []
        | some u => [("uploader", .str u.value)])
    ++ [("externalUrl", jsonOfOptStr (a.external_url.map Url.value)),
        ("version", .num ((a.version : Nat) : Int)),
        ("createdAt", .str a.created_at.value),
        ("updatedAt", jsonOfOptStr (a.updated_at.map MangaDexDateTime.value)),
        ("publishAt", .str a.publish_at.value),
        ("readableAt", .str a.readable_at.value)])

/-- Modelled from the spec: the paginated collection envelope (§6):
`result`, `data`, and the `limit`/`offset`/`total` pagination fields;
the concrete `ChapterCollection` type lives in the schema crate root,
not under `src/`. -/
structure Collection (α : Type) where
  data : List α
  limit : U32
  offset : U32
  total : U32
deriving DecidableEq, Repr

/-- Decode a collection envelope: the `result` discriminator must be
`"ok"`, `data` must be an array of payload values, and the pagination
fields must be `u32` numbers. -/
def decodeCollection (dec : Json → Except DeserErr α) (j : Json) :
    Except DeserErr (Collection α) :=
  match j with
  | .obj fs =>
    match fieldOf fs "result" with
    | some (.str r) =>
      if r = "ok" then
      match fieldOf fs "data" with
      | some (.arr es) =>
        andThenE (decodeList dec es) (fun data =>
        andThenE (decodeU32Field "limit" (fieldOf fs "limit")) (fun limit =>
        andThenE (decodeU32Field "offset" (fieldOf fs "offset")) (fun offset =>
        andThenE (decodeU32Field "total" (fieldOf fs "total")) (fun total =>
        .ok { data := data, limit := limit, offset := offset, total := total }))))
      | _ => .error .badEnvelope
      else .error .badEnvelope
    | _ => .error .badEnvelope
  | _ => .error .badEnvelope

/-- Serialize a collection envelope back to JSON. -/
def serializeCollection (ser : α → Json) (c : Collection α) : Json :=
  .obj [("result", .str "ok"),
        ("data", .arr (c.data.map ser)),
        ("limit", .num ((c.limit : Nat) : Int)),
        ("offset", .num ((c.offset : Nat) : Int)),
        ("total", .num ((c.total : Nat) : Int))]

/-- Modelled from the spec: the production base URL constant of
`constants.rs` (not under `src/`), the fixed default base URL (§6). -/
def API_URL : String := "https://api.mangadex.org"

/-- Modelled from the spec: the secondary "dev" base URL constant of
`constants.rs` (not under `src/`); `HttpClient::api_dev_client` is
documented in `src/` as the client of `api.mangadex.dev`. -/
def API_DEV_URL : String := "https://api.mangadex.dev"

/-- Scan for the `://` scheme separator followed by a non-empty
remainder. -/
def schemeSepAt : List Char → Bool
  | ':' :: '/' :: '/' :: rest => decide (rest ≠ [])
  | _ :: rest => schemeSepAt rest
  | [] => false

/-- Modelled from the spec: absolute-URL parsing of the third-party
`url` crate, reduced to the shape check the claims need: a non-empty
scheme, the `://` separator, and a non-empty remainder. -/
def urlParse (s : String) : Option String :=
  match s.data with
  | [] => none
  | ':' :: _ => none
  | _ :: rest => if schemeSepAt rest then some s else none

/-- `HttpClient::default`: parse the compiled-in production base URL and
construct the client with no auth tokens and no captcha; a parse
failure is fatal at construction (`expect`), modelled as `none`. -/
def defaultClient : Option HttpClient :=
  (urlParse API_URL).map (fun u => ⟨u, none, none⟩)

/-- `HttpClient::api_dev_client`: parse the compiled-in dev base URL and
construct the client with no auth tokens and no captcha; a parse
failure is fatal at construction (`expect`), modelled as `none`. -/
def apiDevClient : Option HttpClient :=
  (urlParse API_DEV_URL).map (fun u => ⟨u, none, none⟩)

/-- A concrete URL resolver for running dispatches on sample data:
plain concatenation of base URL and path. -/
def joinSlash (base path : String) : Option String := some (base ++ path)

/-- A concrete body-text parser given as a lookup table from body texts
to JSON documents; texts outside the table are malformed. -/
def tableParse (table : List (String × Json)) (s : String) : Option Json :=
  fieldOf table s

/-- A sample client holding auth tokens and no captcha. -/
def sampleAuthedClient : HttpClient :=
  ⟨"https://api.mangadex.org", some ⟨"sessiontoken", "refreshtoken"⟩, none⟩

/-- A sample client holding neither auth tokens nor a captcha token. -/
def sampleAnonClient : HttpClient := ⟨"https://api.mangadex.org", none, none⟩

/-- The neutral not-found body the API sends on 404: an `"ok"` envelope
with no data. -/
def okNoDataJson : Json := .obj [("result", .str "ok")]

/-- An `"error"` envelope carrying an empty structured error list. -/
def emptyErrorsJson : Json := .obj [("result", .str "error"), ("errors", .arr [])]

/-- An `"error"` envelope carrying one structured 404 error. -/
def notFoundErrorJson : Json :=
  .obj [("result", .str "error"),
        ("errors", .arr [.obj [("id", .str "3f4b06gr"), ("status", .num 404),
                               ("title", .str "Scanlation group does not exist")]])]

/-- The structured error carried by `notFoundErrorJson`. -/
def notFoundError : MdError :=
  ⟨"3f4b06gr", 404, some "Scanlation group does not exist", none⟩

/-- An `"error"` envelope carrying one structured 403 error. -/
def forbiddenErrorJson : Json :=
  .obj [("result", .str "error"),
        ("errors", .arr [.obj [("id", .str "9a31fd02"), ("status", .num 403),
                               ("title", .str "Captcha required")]])]

/-- The structured error carried by `forbiddenErrorJson`. -/
def forbiddenError : MdError := ⟨"9a31fd02", 403, some "Captcha required", none⟩

/-- A fully well-typed `ChapterAttributes` JSON field list. -/
def baseChapterFields : List (String × Json) :=
  [("title", .str "Oshi no Ko"),
   ("volume", .str "1"),
   ("chapter", .str "2"),
   ("pages", .num 20),
   ("translatedLanguage", .str "en"),
   ("uploader", .str "d2ae45b2"),
   ("externalUrl", .null),
   ("version", .num 1),
   ("createdAt", .str "2021-04-02T10:00:00+00:00"),
   ("updatedAt", .str "2021-04-03T10:00:00+00:00"),
   ("publishAt", .str "2021-04-04T10:00:00+00:00"),
   ("readableAt", .str "2021-04-05T10:00:00+00:00")]

/-- The value `baseChapterFields` decodes to. -/
def baseChapter : ChapterAttributes :=
  ⟨"Oshi no Ko", some "1", some "2", 20, ⟨"en"⟩, some ⟨"d2ae45b2"⟩, none, 1,
   ⟨"2021-04-02T10:00:00+00:00"⟩, some ⟨"2021-04-03T10:00:00+00:00"⟩,
   ⟨"2021-04-04T10:00:00+00:00"⟩, ⟨"2021-04-05T10:00:00+00:00"⟩⟩

/-- The chapter object with one field overridden (the override shadows
the base binding). -/
def chapterWith (name : String) (v : Json) : Json :=
  .obj ((name, v) :: baseChapterFields)

/-- The chapter object with one field removed. -/
def chapterWithout (name : String) : Json :=
  .obj (baseChapterFields.filter (fun kv => kv.1 ≠ name))

/-- A one-element `"ok"` collection envelope of chapters. -/
def sampleCollectionJson : Json :=
  .obj [("result", .str "ok"),
        ("data", .arr [.obj baseChapterFields]),
        ("limit", .num 1), ("offset", .num 0), ("total", .num 1)]

/-- The value `sampleCollectionJson` decodes to. -/
def sampleCollection : Collection ChapterAttributes := ⟨[baseChapter], 1, 0, 1⟩

/-- A sample client holding auth tokens and a captcha solution. -/
def sampleFullClient : HttpClient :=
  ⟨"https://api.mangadex.org", some ⟨"sessiontoken", "refreshtoken"⟩, some "captchasolution"⟩

/-- The `ListChapter` endpoint descriptor from
`src/mangadex-api/src/v5/chapter/list.rs`: `GET /chapter` with a query
payload and no auth requirement. -/
def listChapterEndpoint : EndpointD :=
  { method := .GET, path := "/chapter", query := some (.obj [("limit", .num 1)]) }

/-- The request `buildRequest` assembles for `listChapterEndpoint` on
`sampleFullClient` under `joinSlash`. -/
def sampleBuiltRequest : Request :=
  { method := .GET, url := "https://api.mangadex.org/chapter",
    query := some (.obj [("limit", .num 1)]), body := none, multipart := none,
    headers := [("Authorization", "Bearer sessiontoken"),
                ("X-Captcha-Result", "captchasolution")] }

/-- An `"error"` envelope carrying one structured 400 error. -/
def badLimitErrorJson : Json :=
  .obj [("result", .str "error"),
        ("errors", .arr [.obj [("id", .str "d43a0a05"), ("status", .num 400),
                               ("title", .str "Invalid limit"),
                               ("detail", .str "Limit must be between 1 and 100")]])]

/-- The structured error carried by `badLimitErrorJson`. -/
def badLimitError : MdError :=
  ⟨"d43a0a05", 400, some "Invalid limit", some "Limit must be between 1 and 100"⟩

theorem andThenE_okStep (a : α) (f : α → Except DeserErr β) : andThenE (.ok a) f = f a := rfl

theorem andThenE_errorStep (e : DeserErr) (f : α → Except DeserErr β) :
    andThenE (.error e) f = .error e := rfl

theorem deserializeNullDefault_str (name s : String) :
    deserializeNullDefault name (some (.str s)) = .ok s := rfl

theorem decodeOptStrField_rt (name : String) (v : Option String) :
    decodeOptStrField name (some (jsonOfOptStr v)) = .ok v := by
  cases v <;> rfl

theorem decodeOptStrField_str (name s : String) :
    decodeOptStrField name (some (.str s)) = .ok (some s) := rfl

theorem decodeOptStrField_none (name : String) :
    decodeOptStrField name none = .ok none := rfl

theorem decodeStrField_str (name s : String) :
    decodeStrField name (some (.str s)) = .ok s := rfl

theorem decodeU32Field_rt (name : String) (p : U32) :
    decodeU32Field name (some (.num ((p : Nat) : Int))) = .ok p := by
  have h : (0 : Int) ≤ ((p : Nat) : Int) ∧ ((p : Nat) : Int) < 4294967296 := by
    have := p.is_lt
    omega
  simp only [decodeU32Field, dif_pos h, Int.toNat_natCast, Fin.eta]

theorem decode_serialize_chapterAttributes (a : ChapterAttributes) :
    decodeChapterAttributes (serializeChapterAttributes a) = .ok a := by
  obtain ⟨t, vol, ch, p, ⟨lang⟩, up, ext, ver, ⟨ca⟩, ua, ⟨pa⟩, ⟨ra⟩⟩ := a
  cases up <;>
  · simp only [serializeChapterAttributes, decodeChapterAttributes]
    simp only [List.cons_append, List.nil_append, List.append_nil]
    simp [fieldOf]
    simp only [deserializeNullDefault_str, decodeOptStrField_rt, decodeOptStrField_str,
      decodeOptStrField_none, decodeStrField_str, decodeU32Field_rt, andThenE_okStep]
    cases ext <;> cases ua <;> rfl

theorem decodeList_map_serialize (dec : Json → Except DeserErr α) (ser : α → Json)
    (h : ∀ a, dec (ser a) = .ok a) (l : List α) :
    decodeList dec (l.map ser) = .ok l := by
  induction l with
  | nil => rfl
  | cons a rest ih => simp [decodeList, h, ih]

theorem decode_serialize_collection (c : Collection ChapterAttributes) :
    decodeCollection decodeChapterAttributes
      (serializeCollection serializeChapterAttributes c) = .ok c := by
  obtain ⟨data, lim, off, tot⟩ := c
  simp only [serializeCollection, decodeCollection]
  simp [fieldOf]
  simp only [decodeList_map_serialize decodeChapterAttributes serializeChapterAttributes
    decode_serialize_chapterAttributes data, decodeU32Field_rt, andThenE_okStep]

theorem buildRequest_not_missingTokens (join : String → String → Option String)
    (c : HttpClient) (e : EndpointD)
    (h : c.auth_tokens.isSome ∨ e.require_auth = false) :
    buildRequest join c e ≠ .error .missingTokens := by
  unfold buildRequest
  cases hj : join c.base_url e.path with
  | none => simp
  | some u =>
    cases ht : c.auth_tokens with
    | some t => simp
    | none =>
      rcases h with h | h
      · rw [ht] at h
        simp at h
      · simp [h]

theorem sendRaw_not_missingTokens (join : String → String → Option String)
    (c : HttpClient) (e : EndpointD) (transport : Request → Except String Response)
    (hb : buildRequest join c e ≠ .error .missingTokens) :
    sendRaw join c e transport ≠ .error .missingTokens := by
  cases hbr : buildRequest join c e with
  | error er =>
    have her : er ≠ .missingTokens := fun hcon => hb (hcon ▸ hbr)
    simp [sendRaw, hbr, her]
  | ok req =>
    cases htr : transport req with
    | error msg => simp [sendRaw, hbr, htr]
    | ok res => simp [sendRaw, hbr, htr]

theorem sendRequest_not_missingTokens (join : String → String → Option String)
    (jsonParse : String → Option Json) (dec : Json → Except DeserErr α)
    (c : HttpClient) (e : EndpointD) (transport : Request → Except String Response)
    (hb : buildRequest join c e ≠ .error .missingTokens) :
    sendRequest join jsonParse dec c e transport ≠ .error .missingTokens ∧
    sendRequest join jsonParse dec c e transport ≠ .ok (.error .missingTokens) := by
  cases hbr : buildRequest join c e with
  | error er =>
    have her : er ≠ .missingTokens := fun hcon => hb (hcon ▸ hbr)
    constructor <;> simp [sendRequest, sendRaw, hbr, her]
  | ok req =>
    cases htr : transport req with
    | error msg => constructor <;> simp [sendRequest, sendRaw, hbr, htr]
    | ok res =>
      by_cases h5 : 500 ≤ res.status ∧ res.status ≤ 599
      · constructor <;> simp [sendRequest, sendRaw, hbr, htr, h5]
      · cases hp : jsonParse res.body with
        | none => constructor <;> simp [sendRequest, sendRaw, hbr, htr, h5, hp]
        | some j =>
          cases hd : decodeApiResult dec j with
          | error de => constructor <;> simp [sendRequest, sendRaw, hbr, htr, h5, hp, hd]
          | ok r =>
            cases r <;> constructor <;>
              simp [sendRequest, sendRaw, hbr, htr, h5, hp, hd, fromResponseResult]

theorem sendFlat_not_missingTokens (join : String → String → Option String)
    (jsonParse : String → Option Json) (dec : Json → Except DeserErr α)
    (c : HttpClient) (e : EndpointD) (transport : Request → Except String Response)
    (hb : buildRequest join c e ≠ .error .missingTokens) :
    sendFlat join jsonParse dec c e transport ≠ .error .missingTokens := by
  have h := sendRequest_not_missingTokens join jsonParse dec c e transport hb
  cases hs : sendRequest join jsonParse dec c e transport with
  | error er =>
    have her : er ≠ .missingTokens := fun hcon => h.1 (hcon ▸ hs)
    simp [sendFlat, hs, her]
  | ok r =>
    have hr : r ≠ .error .missingTokens := fun hcon => h.2 (hcon ▸ hs)
    simp [sendFlat, hs, hr]

theorem isFollowingSend_not_missingTokens (join : String → String → Option String)
    (jsonParse : String → Option Json) (c : HttpClient) (gid : String)
    (transport : Request → Except String Response)
    (hb : buildRequest join c (isFollowingGroupEndpoint gid) ≠ .error .missingTokens) :
    isFollowingSend join jsonParse c gid transport ≠ .error .missingTokens := by
  cases hsr : sendRaw join c (isFollowingGroupEndpoint gid) transport with
  | error er =>
    have her : er ≠ .missingTokens := fun hcon =>
      sendRaw_not_missingTokens join c _ transport hb (hcon ▸ hsr)
    simp [isFollowingSend, hsr, her]
  | ok res =>
    by_cases h200 : res.status = 200
    · simp [isFollowingSend, hsr, h200]
    · by_cases h404 : res.status = 404
      · cases hp : jsonParse res.body with
        | none => simp [isFollowingSend, hsr, h200, h404, hp]
        | some j =>
          cases hd : decodeApiResult decodeNoData j with
          | error de => simp [isFollowingSend, hsr, h200, h404, hp, hd]
          | ok r =>
            cases hir : intoResultNoData r with
            | error e2 => simp [isFollowingSend, hsr, h200, h404, hp, hd, hir]
            | ok v => simp [isFollowingSend, hsr, h200, h404, hp, hd, hir]
      · simp [isFollowingSend, hsr, h200, h404]

/-- C3: for every endpoint descriptor requiring auth, when the client
holds no tokens (and the endpoint path resolves against the base URL),
raw dispatch, decoded dispatch, the flattened `send()`, and the
boolean endpoint's `send` all return `MissingTokens`, and the transport
is invoked zero times. -/
theorem missing_tokens_failfast (join : String → String → Option String)
    (c : HttpClient) (e : EndpointD)
    (hauth : e.require_auth = true) (htok : c.auth_tokens = none)
    (hjoin : (join c.base_url e.path).isSome) :
    (∀ transport, sendRaw join c e transport = .error .missingTokens) ∧
    (∀ (α : Type) (jsonParse : String → Option Json) (dec : Json → Except DeserErr α) transport,
      sendRequest join jsonParse dec c e transport = .error .missingTokens) ∧
    (∀ (α : Type) (jsonParse : String → Option Json) (dec : Json → Except DeserErr α) transport,
      sendFlat join jsonParse dec c e transport = .error .missingTokens) ∧
    networkCalls join c e = 0 ∧
    (∀ gid jsonParse transport,
      (join c.base_url (isFollowingGroupEndpoint gid).path).isSome →
      isFollowingSend join jsonParse c gid transport = .error .missingTokens ∧
      networkCalls join c (isFollowingGroupEndpoint gid) = 0) := by
  obtain ⟨u, hu⟩ := Option.isSome_iff_exists.mp hjoin
  have hbuild : buildRequest join c e = .error .missingTokens := by
    simp [buildRequest, hu, htok, hauth]
  refine ⟨fun transport => ?_, fun α jsonParse dec transport => ?_,
    fun α jsonParse dec transport => ?_, ?_, fun gid jsonParse transport hjoin2 => ?_⟩
  · simp [sendRaw, hbuild]
  · simp [sendRequest, sendRaw, hbuild]
  · simp [sendFlat, sendRequest, sendRaw, hbuild]
  · simp [networkCalls, hbuild]
  · obtain ⟨u2, hu2⟩ := Option.isSome_iff_exists.mp hjoin2
    simp only [isFollowingGroupEndpoint] at hu2
    have hbuild2 : buildRequest join c (isFollowingGroupEndpoint gid) =
        .error .missingTokens := by
      simp [buildRequest, hu2, htok, isFollowingGroupEndpoint]
    exact ⟨by simp [isFollowingSend, sendRaw, hbuild2], by simp [networkCalls, hbuild2]⟩

/-- C3 witness: the concrete anonymous client dispatching the concrete
auth-required follow-check endpoint gets `MissingTokens` without any
transport call. -/
theorem missing_tokens_failfast_witness :
    sendRaw joinSlash sampleAnonClient (isFollowingGroupEndpoint "57a3b247")
      (fun _ => .ok ⟨200, "irrelevant"⟩) = .error .missingTokens ∧
    networkCalls joinSlash sampleAnonClient (isFollowingGroupEndpoint "57a3b247") = 0 :=
  ⟨(missing_tokens_failfast joinSlash sampleAnonClient (isFollowingGroupEndpoint "57a3b247")
      rfl rfl rfl).1 _,
   (missing_tokens_failfast joinSlash sampleAnonClient (isFollowingGroupEndpoint "57a3b247")
      rfl rfl rfl).2.2.2.1⟩

/-- C9: `MissingTokens` is raised only under its precondition: when the
client holds tokens or the endpoint does not require auth, neither raw
dispatch nor any of the send paths ever returns `MissingTokens`. -/
theorem missing_tokens_exact_precondition (join : String → String → Option String)
    (c : HttpClient) (e : EndpointD)
    (h : c.auth_tokens.isSome ∨ e.require_auth = false) :
    (∀ transport, sendRaw join c e transport ≠ .error .missingTokens) ∧
    (∀ (α : Type) (jsonParse : String → Option Json) (dec : Json → Except DeserErr α) transport,
      sendRequest join jsonParse dec c e transport ≠ .error .missingTokens ∧
      sendFlat join jsonParse dec c e transport ≠ .error .missingTokens) ∧
    (∀ gid jsonParse transport, c.auth_tokens.isSome →
      isFollowingSend join jsonParse c gid transport ≠ .error .missingTokens) := by
  have hb := buildRequest_not_missingTokens join c e h
  refine ⟨fun transport => sendRaw_not_missingTokens join c e transport hb,
    fun α jsonParse dec transport =>
      ⟨(sendRequest_not_missingTokens join jsonParse dec c e transport hb).1,
       sendFlat_not_missingTokens join jsonParse dec c e transport hb⟩,
    fun gid jsonParse transport htok => ?_⟩
  exact isFollowingSend_not_missingTokens join jsonParse c gid transport
    (buildRequest_not_missingTokens join c (isFollowingGroupEndpoint gid) (.inl htok))

/-- C9 witness: the authed client dispatching the auth-required
follow-check endpoint does not get `MissingTokens`. -/
theorem missing_tokens_exact_precondition_witness :
    sampleAuthedClient.auth_tokens.isSome = true ∧
    sendRaw joinSlash sampleAuthedClient (isFollowingGroupEndpoint "57a3b247")
      (fun _ => .ok ⟨200, "x"⟩) ≠ .error .missingTokens :=
  ⟨rfl, (missing_tokens_exact_precondition joinSlash sampleAuthedClient
      (isFollowingGroupEndpoint "57a3b247") (.inl rfl)).1 _⟩

/-- C1: `IsFollowingGroup::send` maps a 200 response to
`is_following = true`; a 404 response whose body decodes to a neutral
envelope (an ok envelope with no error list, or an error envelope with
an empty one) to `is_following = false`; and a 404 response whose body
decodes to a non-empty structured error list to an `ApiError`, never a
coerced `false`. -/
theorem isFollowingGroup_send_classification (join : String → String → Option String)
    (jsonParse : String → Option Json) (c : HttpClient) (gid : String)
    (transport : Request → Except String Response) (res : Response)
    (hsr : sendRaw join c (isFollowingGroupEndpoint gid) transport = .ok res) :
    (res.status = 200 → isFollowingSend join jsonParse c gid transport = .ok ⟨true⟩) ∧
    (∀ j, res.status = 404 → jsonParse res.body = some j →
      (decodeApiResult decodeNoData j = .ok (.ok ⟨⟩) ∨
       decodeApiResult decodeNoData j = .ok (.err ⟨[]⟩)) →
      isFollowingSend join jsonParse c gid transport = .ok ⟨false⟩) ∧
    (∀ j errs, res.status = 404 → jsonParse res.body = some j →
      decodeApiResult decodeNoData j = .ok (.err errs) → errs.errors ≠ [] →
      isFollowingSend join jsonParse c gid transport = .error (.api errs)) := by
  refine ⟨fun h200 => ?_, fun j h404 hp hd => ?_, fun j errs h404 hp hd hne => ?_⟩
  · simp [isFollowingSend, hsr, h200]
  · rcases hd with hd | hd <;> simp [isFollowingSend, hsr, h404, hp, hd, intoResultNoData]
  · simp [isFollowingSend, hsr, h404, hp, hd, intoResultNoData, hne]

/-- C1 witness: concrete dispatches — 200 yields true; 404 with the
neutral ok body and 404 with an empty error list yield false; 404 with
a structured 404 error yields that `ApiError`. -/
theorem isFollowingGroup_send_classification_witness :
    isFollowingSend joinSlash (tableParse [("okbody", okNoDataJson)]) sampleAuthedClient
      "57a3b247" (fun _ => .ok ⟨200, "okbody"⟩) = .ok ⟨true⟩ ∧
    isFollowingSend joinSlash (tableParse [("okbody", okNoDataJson)]) sampleAuthedClient
      "57a3b247" (fun _ => .ok ⟨404, "okbody"⟩) = .ok ⟨false⟩ ∧
    isFollowingSend joinSlash (tableParse [("emptyerrs", emptyErrorsJson)]) sampleAuthedClient
      "57a3b247" (fun _ => .ok ⟨404, "emptyerrs"⟩) = .ok ⟨false⟩ ∧
    isFollowingSend joinSlash (tableParse [("errbody", notFoundErrorJson)]) sampleAuthedClient
      "57a3b247" (fun _ => .ok ⟨404, "errbody"⟩) = .error (.api ⟨[notFoundError]⟩) :=
  ⟨(isFollowingGroup_send_classification joinSlash (tableParse [("okbody", okNoDataJson)])
      sampleAuthedClient "57a3b247" (fun _ => .ok ⟨200, "okbody"⟩) ⟨200, "okbody"⟩ rfl).1 rfl,
   (isFollowingGroup_send_classification joinSlash (tableParse [("okbody", okNoDataJson)])
      sampleAuthedClient "57a3b247" (fun _ => .ok ⟨404, "okbody"⟩) ⟨404, "okbody"⟩ rfl).2.1
      okNoDataJson rfl rfl (.inl rfl),
   (isFollowingGroup_send_classification joinSlash (tableParse [("emptyerrs", emptyErrorsJson)])
      sampleAuthedClient "57a3b247" (fun _ => .ok ⟨404, "emptyerrs"⟩) ⟨404, "emptyerrs"⟩ rfl).2.1
      emptyErrorsJson rfl rfl (.inr rfl),
   (isFollowingGroup_send_classification joinSlash (tableParse [("errbody", notFoundErrorJson)])
      sampleAuthedClient "57a3b247" (fun _ => .ok ⟨404, "errbody"⟩) ⟨404, "errbody"⟩ rfl).2.2
      notFoundErrorJson ⟨[notFoundError]⟩ rfl rfl rfl (by simp [notFoundError])⟩

/-- C10: on a 404 response whose body is not parseable JSON, or parses
to a document that is not a valid envelope, `IsFollowingGroup::send`
returns the deserialization error; it never returns a success value,
in particular never `is_following = false`. -/
theorem isFollowingGroup_send_malformed_404 (join : String → String → Option String)
    (jsonParse : String → Option Json) (c : HttpClient) (gid : String)
    (transport : Request → Except String Response) (res : Response)
    (hsr : sendRaw join c (isFollowingGroupEndpoint gid) transport = .ok res)
    (h404 : res.status = 404) :
    (jsonParse res.body = none →
      isFollowingSend join jsonParse c gid transport = .error (.parse .badJson)) ∧
    (∀ j de, jsonParse res.body = some j → decodeApiResult decodeNoData j = .error de →
      isFollowingSend join jsonParse c gid transport = .error (.parse de)) ∧
    ((jsonParse res.body = none ∨
      (∃ j de, jsonParse res.body = some j ∧ decodeApiResult decodeNoData j = .error de)) →
      ∀ r, isFollowingSend join jsonParse c gid transport ≠ .ok r) := by
  refine ⟨fun hp => ?_, fun j de hp hd => ?_, fun hbad r => ?_⟩
  · simp [isFollowingSend, hsr, h404, hp]
  · simp [isFollowingSend, hsr, h404, hp, hd]
  · rcases hbad with hp | ⟨j, de, hp, hd⟩
    · simp [isFollowingSend, hsr, h404, hp]
    · simp [isFollowingSend, hsr, h404, hp, hd]

/-- C10 witness: a 404 body that is not in the parser's table (malformed
text) yields the JSON-parse error; a body parsing to a bare number
yields the envelope error. -/
theorem isFollowingGroup_send_malformed_404_witness :
    isFollowingSend joinSlash (tableParse []) sampleAuthedClient "57a3b247"
      (fun _ => .ok ⟨404, "garbage"⟩) = .error (.parse .badJson) ∧
    isFollowingSend joinSlash (tableParse [("five", .num 5)]) sampleAuthedClient "57a3b247"
      (fun _ => .ok ⟨404, "five"⟩) = .error (.parse .badEnvelope) :=
  ⟨(isFollowingGroup_send_malformed_404 joinSlash (tableParse []) sampleAuthedClient
      "57a3b247" (fun _ => .ok ⟨404, "garbage"⟩) ⟨404, "garbage"⟩ rfl rfl).1 rfl,
   (isFollowingGroup_send_malformed_404 joinSlash (tableParse [("five", .num 5)])
      sampleAuthedClient "57a3b247" (fun _ => .ok ⟨404, "five"⟩) ⟨404, "five"⟩ rfl rfl).2.1
      (.num 5) .badEnvelope rfl rfl⟩

/-- C2 counterexample: a 403 response whose body is a well-formed error
envelope, dispatched through `IsFollowingGroup::send`, is classified as
`ServerError(403, body)`, not as the `ApiError` the claim requires for
every 4xx on every dispatch path. -/
theorem fourxx_envelope_counterexample :
    decodeApiResult decodeNoData forbiddenErrorJson = .ok (.err ⟨[forbiddenError]⟩) ∧
    isFollowingSend joinSlash (tableParse [("b403", forbiddenErrorJson)]) sampleAuthedClient
      "61262f2b" (fun _ => .ok ⟨403, "b403"⟩) = .error (.serverError 403 "b403") ∧
    isFollowingSend joinSlash (tableParse [("b403", forbiddenErrorJson)]) sampleAuthedClient
      "61262f2b" (fun _ => .ok ⟨403, "b403"⟩) ≠ .error (.api ⟨[forbiddenError]⟩) := by
  have h : isFollowingSend joinSlash (tableParse [("b403", forbiddenErrorJson)])
      sampleAuthedClient "61262f2b" (fun _ => .ok ⟨403, "b403"⟩) =
      .error (.serverError 403 "b403") := rfl
  exact ⟨rfl, h, by rw [h]; simp⟩

/-- C2 amended: a 4xx response whose body decodes as a well-formed
error envelope is classified as `ApiError` by the generic send path for
every 4xx status, and by the boolean endpoint for status 404; the
boolean endpoint maps other 4xx statuses to `ServerError` (see the
counterexample). -/
theorem fourxx_envelope_classification :
    (∀ (join : String → String → Option String) (jsonParse : String → Option Json)
      (α : Type) (dec : Json → Except DeserErr α) (c : HttpClient) (e : EndpointD)
      (transport : Request → Except String Response) (res : Response) (j : Json)
      (errs : ApiErrors),
      sendRaw join c e transport = .ok res → 400 ≤ res.status → res.status ≤ 499 →
      jsonParse res.body = some j → decodeApiResult dec j = .ok (.err errs) →
      sendFlat join jsonParse dec c e transport = .error (.api errs)) ∧
    (∀ (join : String → String → Option String) (jsonParse : String → Option Json)
      (c : HttpClient) (gid : String) (transport : Request → Except String Response)
      (res : Response) (j : Json) (errs : ApiErrors),
      sendRaw join c (isFollowingGroupEndpoint gid) transport = .ok res →
      res.status = 404 → jsonParse res.body = some j →
      decodeApiResult decodeNoData j = .ok (.err errs) → errs.errors ≠ [] →
      isFollowingSend join jsonParse c gid transport = .error (.api errs)) := by
  constructor
  · intro join jsonParse α dec c e transport res j errs hsr h4 h4' hp hd
    have h5 : ¬ (500 ≤ res.status ∧ res.status ≤ 599) := by omega
    simp [sendFlat, sendRequest, hsr, h5, hp, hd, fromResponseResult]
  · intro join jsonParse c gid transport res j errs hsr h404 hp hd hne
    simp [isFollowingSend, hsr, h404, hp, hd, intoResultNoData, hne]

/-- C2 witness: a 400 response with the invalid-limit error envelope on
the generic list endpoint yields that `ApiError`; a 404 structured
error through the boolean endpoint also yields its `ApiError`. -/
theorem fourxx_envelope_classification_witness :
    sendFlat joinSlash (tableParse [("b400", badLimitErrorJson)]) decodeNoData
      sampleAuthedClient listChapterEndpoint (fun _ => .ok ⟨400, "b400"⟩) =
      .error (.api ⟨[badLimitError]⟩) ∧
    isFollowingSend joinSlash (tableParse [("nf", notFoundErrorJson)]) sampleAuthedClient
      "8a6b27cd" (fun _ => .ok ⟨404, "nf"⟩) = .error (.api ⟨[notFoundError]⟩) :=
  ⟨fourxx_envelope_classification.1 joinSlash (tableParse [("b400", badLimitErrorJson)])
      NoData decodeNoData sampleAuthedClient listChapterEndpoint (fun _ => .ok ⟨400, "b400"⟩)
      ⟨400, "b400"⟩ badLimitErrorJson ⟨[badLimitError]⟩ rfl (by decide) (by decide) rfl rfl,
   fourxx_envelope_classification.2 joinSlash (tableParse [("nf", notFoundErrorJson)])
      sampleAuthedClient "8a6b27cd" (fun _ => .ok ⟨404, "nf"⟩) ⟨404, "nf"⟩
      notFoundErrorJson ⟨[notFoundError]⟩ rfl rfl rfl rfl (by simp [notFoundError])⟩

/-- C4 counterexample: a status-600 response has status ≥ 500 but lies
outside the `500..=599` range recognised by `is_server_error`, so
`send_request` does not return `ServerError`; it feeds the body to the
JSON parser instead (here the body is malformed, giving a parse
error). -/
theorem server_error_counterexample :
    sendRequest joinSlash (tableParse []) decodeNoData sampleAuthedClient
      (isFollowingGroupEndpoint "61262f2b") (fun _ => .ok ⟨600, "oops"⟩) =
      .error (.parse .badJson) ∧
    sendRequest joinSlash (tableParse []) decodeNoData sampleAuthedClient
      (isFollowingGroupEndpoint "61262f2b") (fun _ => .ok ⟨600, "oops"⟩) ≠
      .error (.serverError 600 "oops") := by
  have h : sendRequest joinSlash (tableParse []) decodeNoData sampleAuthedClient
      (isFollowingGroupEndpoint "61262f2b") (fun _ => .ok ⟨600, "oops"⟩) =
      .error (.parse .badJson) := rfl
  exact ⟨h, by rw [h]; simp⟩

/-- C4 amended: for every response whose status is in the 5xx class
(`500..=599`), `send_request` returns `ServerError` carrying the status
and the exact raw body text, whatever the body and for every JSON
parser — the body is never parsed. -/
theorem server_error_5xx_classification (join : String → String → Option String)
    (jsonParse : String → Option Json) (dec : Json → Except DeserErr α)
    (c : HttpClient) (e : EndpointD) (transport : Request → Except String Response)
    (res : Response) (hsr : sendRaw join c e transport = .ok res)
    (h5 : 500 ≤ res.status) (h5' : res.status ≤ 599) :
    sendRequest join jsonParse dec c e transport = .error (.serverError res.status res.body) := by
  simp [sendRequest, hsr, h5, h5']

/-- C4 witness: a concrete 503 response with a non-JSON body is
returned as `ServerError(503, body)` verbatim. -/
theorem server_error_5xx_classification_witness :
    sendRequest joinSlash (tableParse []) decodeNoData sampleAuthedClient
      (isFollowingGroupEndpoint "61262f2b") (fun _ => .ok ⟨503, "service unavailable"⟩) =
      .error (.serverError 503 "service unavailable") :=
  server_error_5xx_classification joinSlash (tableParse []) decodeNoData sampleAuthedClient
    (isFollowingGroupEndpoint "61262f2b") (fun _ => .ok ⟨503, "service unavailable"⟩)
    ⟨503, "service unavailable"⟩ rfl (by decide) (by decide)

/-- C5: every successfully built request carries exactly the bearer
header when tokens are present — independently of the endpoint's auth
requirement — followed by the captcha header when a captcha is set, and
no other header. -/
theorem injected_headers_exact (join : String → String → Option String) (c : HttpClient)
    (e : EndpointD) (req : Request) (h : buildRequest join c e = .ok req) :
    req.headers =
      (match c.auth_tokens with
       | some t => [("Authorization", "Bearer " ++ t.session)]
       | none => []) ++
      (match c.captcha with
       | some cap => [("X-Captcha-Result", cap)]
       | none => []) := by
  unfold buildRequest at h
  cases hj : join c.base_url e.path <;> simp only [hj] at h
  · exact absurd h (by simp)
  case some u =>
    cases ht : c.auth_tokens <;> simp only [ht] at h
    case none =>
      cases ha : e.require_auth <;> simp only [ha] at h
      case false =>
        cases hc : c.captcha <;> simp only [addCaptcha, hc] at h <;>
          · obtain ⟨rfl⟩ := Except.ok.inj h
            simp [ht, hc]
      case true => exact absurd h (by simp)
    case some t =>
      cases hc : c.captcha <;> simp only [addCaptcha, hc] at h <;>
        · obtain ⟨rfl⟩ := Except.ok.inj h
          simp [ht, hc]

/-- C5 witness: the request built for the no-auth list endpoint on a
client holding both tokens and a captcha carries both headers and
nothing else. -/
theorem injected_headers_exact_witness :
    sampleBuiltRequest.headers =
      [("Authorization", "Bearer sessiontoken"), ("X-Captcha-Result", "captchasolution")] := by
  have h := injected_headers_exact joinSlash sampleFullClient listChapterEndpoint
    sampleBuiltRequest rfl
  simpa [sampleFullClient] using h

/-- C6: decoding `ChapterAttributes` maps a `null` title to the empty
string; the leniency does not extend further — a missing title, an
ill-typed title, a `null` or missing value in any non-optional field,
and an ill-typed value in an optional field all surface a
deserialization error. -/
theorem chapter_title_null_leniency :
    decodeChapterAttributes (chapterWith "title" .null) =
      .ok { baseChapter with title := "" } ∧
    decodeChapterAttributes (.obj baseChapterFields) = .ok baseChapter ∧
    decodeChapterAttributes (chapterWithout "title") = .error (.missingField "title") ∧
    decodeChapterAttributes (chapterWith "title" (.num 3)) = .error (.typeMismatch "title") ∧
    decodeChapterAttributes (chapterWith "pages" .null) = .error (.typeMismatch "pages") ∧
    decodeChapterAttributes (chapterWithout "pages") = .error (.missingField "pages") ∧
    decodeChapterAttributes (chapterWith "translatedLanguage" .null) =
      .error (.typeMismatch "translatedLanguage") ∧
    decodeChapterAttributes (chapterWith "version" .null) = .error (.typeMismatch "version") ∧
    decodeChapterAttributes (chapterWith "createdAt" .null) = .error (.typeMismatch "createdAt") ∧
    decodeChapterAttributes (chapterWith "publishAt" .null) = .error (.typeMismatch "publishAt") ∧
    decodeChapterAttributes (chapterWith "readableAt" .null) =
      .error (.typeMismatch "readableAt") ∧
    decodeChapterAttributes (chapterWith "volume" (.num 3)) = .error (.typeMismatch "volume") :=
  ⟨rfl, rfl, rfl, rfl, rfl, rfl, rfl, rfl, rfl, rfl, rfl, rfl⟩

/-- C7: for every JSON document that decodes as a well-formed ok
collection envelope of chapters, serializing the decoded value back to
JSON and decoding it again yields the originally decoded value. -/
theorem ok_envelope_roundtrip (j : Json) (c : Collection ChapterAttributes)
    (_h : decodeCollection decodeChapterAttributes j = .ok c) :
    decodeCollection decodeChapterAttributes
      (serializeCollection serializeChapterAttributes c) = .ok c :=
  decode_serialize_collection c

/-- C7 witness: the concrete one-chapter collection envelope decodes,
and re-decoding its serialization returns the same value. -/
theorem ok_envelope_roundtrip_witness :
    decodeCollection decodeChapterAttributes sampleCollectionJson = .ok sampleCollection ∧
    decodeCollection decodeChapterAttributes
      (serializeCollection serializeChapterAttributes sampleCollection) =
      .ok sampleCollection :=
  ⟨rfl, ok_envelope_roundtrip sampleCollectionJson sampleCollection rfl⟩

/-- C8: both compiled-in base URL constants parse, so the default
client and the dev client construct successfully with the expected
state; construction is URL parsing followed by state assembly, so a
malformed constant would fail at construction, never at the first
request. -/
theorem client_construction_parses_base_url :
    urlParse API_URL = some API_URL ∧ urlParse API_DEV_URL = some API_DEV_URL ∧
    defaultClient = some ⟨API_URL, none, none⟩ ∧
    apiDevClient = some ⟨API_DEV_URL, none, none⟩ :=
  ⟨rfl, rfl, rfl, rfl⟩

end Mangadex
